import Mathlib

/-!
Verification of the Levermann score engine
(`src/autotrader/filter/levermann_score.py`).

Shallow embedding conventions:
* Python numbers (ints and floats) are modelled as exact rationals `ℚ`;
  decimal literals such as `0.05` denote the corresponding rational.
* Fallible Python code is modelled in `Except PyError _`: an adapter access
  (`stock.get_data_attr`, `stock.get_data`, ...) that raises is a snapshot
  field holding `.error e`; a returned value is `.ok v`.  `analyse` catches
  exactly `(KeyError, IndexError, TypeError)`; every other error propagates
  to the caller (modelled as an `.error` result of `analyse`).
* numpy float division by zero yields `inf`/`nan` *without raising*; the
  model (`npdiv`) returns `0` in that case.  No theorem below depends on the
  value of a numpy division by zero, only on the absence of an exception.
  Plain-Python division by zero raises `ZeroDivisionError` and is modelled
  explicitly at each such site.
* Bars (`self.bars`, `self.index_bars`) are rows with column 0 = close price
  and column 5 = timestamp; timestamps and report dates are modelled as
  integer day ordinals.  `get_data("income")` records are reduced to their
  parsed `reportDate`; a falsy result (`None` or `[]`) is the empty list,
  and any shape/parse failure while obtaining them is folded into the
  `Except` error of the field.
-/

namespace Levermann

/-- The Python exception classes that can arise during an evaluation.
`analyse` catches the first three (`except (KeyError, IndexError, TypeError)`). -/
inductive PyError where
  | keyError
  | indexError
  | typeError
  | valueError
  | zeroDivisionError
  deriving DecidableEq

/-- The `BaseFilter.BUY / SELL / HOLD` decision constants. -/
inductive Decision where
  | BUY
  | SELL
  | HOLD
  deriving DecidableEq

/-- One entry of a trend `distributionList`:
`{'Recommendation': ..., 'NumberOfAnalysts': ...}`. -/
structure DistEntry where
  recommendation : ℚ
  numberOfAnalysts : ℚ
  deriving DecidableEq

/-- One price bar: column 0 (close price) and column 5 (timestamp). -/
structure Bar where
  close : ℚ
  ts : ℤ
  deriving DecidableEq

instance : Inhabited Bar := ⟨⟨0, 0⟩⟩

/-- The immutable data snapshot bound to the engine for one evaluation:
every adapter access the calculators perform, each either a value or a
raised exception. -/
structure Snapshot where
  /-- `get_data_attr("balance", "totalAssets")` -/
  totalAssets : Except PyError ℚ
  /-- `get_data_attr("balance", "totalCurrentLiabili")` -/
  totalCurrentLiabili : Except PyError ℚ
  /-- `get_data_attr("balance", "accumulatedDepreciation")` -/
  accumulatedDepreciation : Except PyError ℚ
  /-- `get_data_attr("income", "netIncome")` -/
  netIncome : Except PyError ℚ
  /-- `get_data_attr("income", "netBeforeTaxes")` -/
  netBeforeTaxes : Except PyError ℚ
  /-- `get_data_attr("income", "totalRevenue")` -/
  totalRevenue : Except PyError ℚ
  /-- `get_data_attr("income", "dilutedEpsExtraOrd", annual=True, quarter_diff=q)`,
  indexed by the quarter offset `q`; the adapter returns the sentinel `-1`
  when the fact is unavailable. -/
  dilutedEpsExtraOrd : ℕ → Except PyError ℚ
  /-- `get_data_attr("recommendation", "eps")` -/
  recommendationEps : Except PyError ℚ
  /-- `get_data("recommendation")['trends'][k]['distributionList']`,
  indexed by `k`. -/
  trendsDistributionList : ℕ → Except PyError (List DistEntry)
  /-- the parsed `reportDate` of each record of `get_data("income")`,
  most recent first (empty when the statement list is falsy). -/
  incomeReportDates : Except PyError (List ℤ)
  /-- `self.bars` -/
  bars : List Bar
  /-- `self.index_bars` -/
  indexBars : List Bar

/-- numpy float division: division by zero warns and yields a non-raising
float (`inf`/`nan`), modelled as `0` (no theorem depends on that value). -/
def npdiv (a b : ℚ) : ℚ :=
  if b = 0 then 0 else a / b

/-- `np.where(column < d)[0][-1]`: the last index whose timestamp is strictly
before `d`; `[-1]` on an empty index array raises `IndexError`. -/
def npWhereLastLt (bars : List Bar) (d : ℤ) : Except PyError ℕ :=
  match ((List.range bars.length).filter
      (fun i => decide ((bars.getD i default).ts < d))).getLast? with
  | none => .error .indexError
  | some i => .ok i

/-- numpy integer indexing with wrap-around for negative indices
(`bars[i]` with `i = -1` meaning the last row).  Only used at indices that
are in range after the wrap. -/
def npGet (bars : List Bar) (i : ℤ) : Bar :=
  if i < 0 then bars.getD (i + bars.length).toNat default
  else bars.getD i.toNat default

/-- `LevermannScore.calculate_trendsrating`: analyst-count weighted average
recommendation; `nominator / denominator` with a zero denominator raises
`ZeroDivisionError`, which the function catches, returning `0`. -/
def calculate_trendsrating (datas : List DistEntry) : ℚ :=
  let nominator := datas.foldl
    (fun acc data => acc + data.recommendation * data.numberOfAnalysts) 0
  let denominator := datas.foldl (fun acc data => acc + data.numberOfAnalysts) 0
  if denominator = 0 then 0 else nominator / denominator

/-- `__calculate_shareholders_equity`. -/
def calculate_shareholders_equity (s : Snapshot) : Except PyError ℚ := do
  let total_assets ← s.totalAssets
  let current_liabilities ← s.totalCurrentLiabili
  pure (total_assets - current_liabilities)

/-- `__calculate_roe`: `roe = 0`, overwritten by `net_income /
shareholders_equity` only when the equity is nonzero. -/
def calculate_roe (s : Snapshot) : Except PyError ℚ := do
  let net_income ← s.netIncome
  let shareholders_equity ← calculate_shareholders_equity s
  pure (if shareholders_equity ≠ 0 then net_income / shareholders_equity else 0)

/-- `__calculate_ebit_margin`: guarded by `total_revenue > 0`. -/
def calculate_ebit_margin (s : Snapshot) : Except PyError ℚ := do
  let net_income_before_taxes ← s.netBeforeTaxes
  let accumulated_depreciation ← s.accumulatedDepreciation
  let total_revenue ← s.totalRevenue
  pure (if total_revenue > 0 then
    (net_income_before_taxes - accumulated_depreciation) / total_revenue
  else 0)

/-- `__calculate_shareholders_equity_ratio`: guarded by `total_assets > 0`. -/
def calculate_shareholders_equity_ratio (s : Snapshot) : Except PyError ℚ := do
  let total_assets ← s.totalAssets
  let shareholders_equity ← calculate_shareholders_equity s
  pure (if total_assets > 0 then shareholders_equity / total_assets else 0)

/-- The five annual diluted-EPS accesses made by `__calculate_eps_avg` and
`__calculate_eps_difference`: `quarter_diff = idx * 4` for `idx` in
`range(0, 5)`. -/
def epsAnnualSamples (s : Snapshot) : List (Except PyError ℚ) :=
  (List.range 5).map (fun idx => s.dilutedEpsExtraOrd (idx * 4))

/-- The accumulation loop of `__calculate_eps_avg`: sums the samples that
are not the `-1` sentinel and counts them. -/
def eps_avg_loop : List (Except PyError ℚ) → ℚ → ℕ → Except PyError (ℚ × ℕ)
  | [], eps_n, eps_counter => .ok (eps_n, eps_counter)
  | e :: rest, eps_n, eps_counter => do
      let eps_annual ← e
      if eps_annual ≠ -1 then eps_avg_loop rest (eps_n + eps_annual) (eps_counter + 1)
      else eps_avg_loop rest eps_n eps_counter

/-- `__calculate_eps_avg` (with the default `years=5`): `-1` when no year is
available, otherwise the mean of the available years. -/
def calculate_eps_avg (s : Snapshot) : Except PyError ℚ := do
  let acc ← eps_avg_loop (epsAnnualSamples s) 0 0
  if acc.2 = 0 then pure (-1) else pure (acc.1 / (acc.2 : ℚ))

/-- `__calculate_price_earnings_ratios`: `close_prices[-1]` raises
`IndexError` on an empty bar array; returns `None` unless both the EPS
estimate and the 5-year EPS average are positive. -/
def calculate_price_earnings_ratios (s : Snapshot) :
    Except PyError (Option (List ℚ)) := do
  let eps_estimate ← s.recommendationEps
  let close_prices := s.bars.map Bar.close
  let last_close ← match close_prices.getLast? with
    | none => (.error .indexError : Except PyError ℚ)
    | some c => .ok c
  let eps_avg ← calculate_eps_avg s
  if eps_estimate > 0 ∧ eps_avg > 0 then
    pure (some [last_close / eps_estimate, last_close / eps_avg])
  else
    pure none

/-- `__calculate_rating` (the valuation sub-score): `-1` when the ratio pair
is unavailable; otherwise one point per ratio through the literal branches
`ratio > 0 or ratio < 12` / `ratio > 12 or ratio < 0`. -/
def calculate_rating (s : Snapshot) : Except PyError ℤ := do
  let price_earnings_ratios ← calculate_price_earnings_ratios s
  match price_earnings_ratios with
  | none => pure (-1)
  | some ratios =>
      pure (ratios.foldl (fun levermann ratio =>
        if ratio > 0 ∨ ratio < 12 then levermann + 1
        else if ratio > 12 ∨ ratio < 0 then levermann - 1
        else levermann) 0)

/-- `__calculate_impact_of_quartly_figures`: relative price reaction of the
stock versus the index around the most recent quarterly report date; `-1`
when the income statement list is falsy.  `bars[[idx, idx - 1]]` is numpy
fancy indexing (`idx - 1` wraps when `idx = 0`), and the two percentage
moves divide by the close of the *earlier* of the two selected rows
(`vals[1][0]`), a numpy float division. -/
def calculate_impact_of_quartly_figures (s : Snapshot) : Except PyError ℚ := do
  let recs ← s.incomeReportDates
  match recs with
  | [] => pure (-1)
  | last_quarterly :: _ => do
      let idx_index_last_quarterly ← npWhereLastLt s.indexBars last_quarterly
      let idx_stock_last_quarterly ← npWhereLastLt s.bars last_quarterly
      let vals_stock_last_quarterly :=
        (npGet s.bars (idx_stock_last_quarterly : ℤ),
         npGet s.bars ((idx_stock_last_quarterly : ℤ) - 1))
      let vals_index_last_quarterly :=
        (npGet s.indexBars (idx_index_last_quarterly : ℤ),
         npGet s.indexBars ((idx_index_last_quarterly : ℤ) - 1))
      let perf_quarterly_index_prc := 100 * npdiv
        (vals_index_last_quarterly.2.close - vals_index_last_quarterly.1.close)
        vals_index_last_quarterly.2.close
      let perf_quarterly_stock_prc := 100 * npdiv
        (vals_stock_last_quarterly.2.close - vals_stock_last_quarterly.1.close)
        vals_stock_last_quarterly.2.close
      pure (perf_quarterly_stock_prc - perf_quarterly_index_prc)

/-- `__calculate_rating_differences_in_percent`: percentage change between
the most recent and the 4-weeks-prior weighted trend rating.  The division
by `rating` is plain-Python division: a zero rating raises
`ZeroDivisionError`, which nothing in this function catches. -/
def calculate_rating_differences_in_percent (s : Snapshot) : Except PyError ℚ := do
  let dist0 ← s.trendsDistributionList 0
  let rating := calculate_trendsrating dist0
  let dist2 ← s.trendsDistributionList 2
  let rating_4w := calculate_trendsrating dist2
  if rating = 0 then .error .zeroDivisionError
  else pure (100 * (rating_4w - rating) / rating)

/-- `__calculate_performance`: 6-month and 12-month price performance;
indexing an empty close-price array raises `IndexError`; the divisions are
numpy float divisions. -/
def calculate_performance (s : Snapshot) : Except PyError (List ℚ) := do
  let close_prices := s.bars.map Bar.close
  let close_6m ← match close_prices.get? (close_prices.length / 2) with
    | none => (.error .indexError : Except PyError ℚ)
    | some c => .ok c
  let last_close ← match close_prices.getLast? with
    | none => (.error .indexError : Except PyError ℚ)
    | some c => .ok c
  let first_close ← match close_prices.head? with
    | none => (.error .indexError : Except PyError ℚ)
    | some c => .ok c
  pure [npdiv last_close close_6m - 1, npdiv last_close first_close - 1]

/-- Modelled from the spec: `StockIsHot.get_performance` (module
`autotrader.filter.stock_is_hot`, not under `src/`) builds the rolling
non-overlapping `n`-bar trailing performance sequence of a close-price
series, in chronological order (the caller reverses it to most-recent
first); each window's performance is its last close over its first close,
minus one; a leftover prefix shorter than `n` is dropped. -/
def get_performance (close_prices : List ℚ) (n : ℕ) : List ℚ :=
  if n = 0 then []
  else
    let k := close_prices.length / n
    let start := close_prices.length - k * n
    (List.range k).map (fun j =>
      npdiv (close_prices.getD (start + j * n + (n - 1)) 0)
        (close_prices.getD (start + j * n) 0) - 1)

/-- The `np.nditer` loop of `__compare_index_with_stock_performance`:
walks the index performance sequence, comparing position by position with
the stock performance sequence; `stock_perf[idx]` raises `IndexError` when
the stock sequence is exhausted first. -/
def comparePerfRun : List ℚ → List ℚ → ℤ → Except PyError ℤ
  | [], _, perf_measure => .ok perf_measure
  | _ :: _, [], _ => .error .indexError
  | perf :: index_rest, sp :: stock_rest, perf_measure =>
      comparePerfRun index_rest stock_rest
        (if perf > sp then perf_measure + 1 else perf_measure - 1)

/-- `__compare_index_with_stock_performance`: `0` when either reversed
performance sequence is empty, otherwise the signed comparison sum. -/
def compare_index_with_stock_performance (s : Snapshot) : Except PyError ℤ :=
  let stock_perf := (get_performance (s.bars.map Bar.close) 30).reverse
  let index_perf := (get_performance (s.indexBars.map Bar.close) 30).reverse
  if stock_perf.length = 0 ∨ index_perf.length = 0 then .ok 0
  else comparePerfRun index_perf stock_perf 0

/-- `__calculate_technique` (criterion 12): `perf_measure == 3` gives `+1`,
`perf_measure == -3` gives `-1`, anything else `0`. -/
def calculate_technique (s : Snapshot) : Except PyError ℤ := do
  let perf_measure ← compare_index_with_stock_performance s
  pure (if perf_measure = 3 then 1 else if perf_measure = -3 then (-1 : ℤ) else 0)

/-- The `eps_last` loop of `__calculate_eps_difference`: starts at `0` and
overwrites with every sample that is not the `-1` sentinel (so it ends on
the non-sentinel sample with the *largest* quarter offset). -/
def eps_last_loop : List (Except PyError ℚ) → ℚ → Except PyError ℚ
  | [], eps_last => .ok eps_last
  | e :: rest, eps_last => do
      let eps_annual ← e
      if eps_annual ≠ -1 then eps_last_loop rest eps_annual
      else eps_last_loop rest eps_last

/-- `__calculate_eps_difference`: percentage difference between the EPS
estimate and `eps_last`; the division is wrapped in
`try ... except ZeroDivisionError: return 0`. -/
def calculate_eps_difference (s : Snapshot) : Except PyError ℚ := do
  let eps_estimate ← s.recommendationEps
  let eps_last ← eps_last_loop (epsAnnualSamples s) 0
  if eps_estimate = 0 then pure 0
  else pure (100 * (eps_estimate - eps_last) / eps_estimate)

/-- `__calculate_quality` (criteria 1-3). -/
def calculate_quality (s : Snapshot) : Except PyError ℤ := do
  let roe ← calculate_roe s
  let ebit_margin ← calculate_ebit_margin s
  let shareholders_equity_ratio ← calculate_shareholders_equity_ratio s
  let levermann : ℤ := 0
  let levermann := if roe > 0.2 then levermann + 1
    else if roe < 0.1 then levermann - 1 else levermann
  let levermann := if ebit_margin > 0.12 then levermann + 1
    else if ebit_margin < 0.06 then levermann - 1 else levermann
  let levermann := if shareholders_equity_ratio > 0.25 then levermann + 1
    else if shareholders_equity_ratio < 0.15 then levermann - 1 else levermann
  pure levermann

/-- `__calculate_mood` (criteria 6-7). -/
def calculate_mood (s : Snapshot) : Except PyError ℤ := do
  let dist0 ← s.trendsDistributionList 0
  let rating := calculate_trendsrating dist0
  let impact_quartly ← calculate_impact_of_quartly_figures s
  let levermann : ℤ := 0
  let levermann := if rating ≥ 2.5 then levermann + 1
    else if rating ≤ 1.5 then levermann - 1 else levermann
  let levermann := if impact_quartly > 1.0 then levermann + 1
    else if impact_quartly < -1.0 then levermann - 1 else levermann
  pure levermann

/-- `__calculate_momentum` (criteria 8-11); `performance_list_stock` always
has exactly two entries, modelled with `List.getD`. -/
def calculate_momentum (s : Snapshot) : Except PyError ℤ := do
  let rating_dif_prc ← calculate_rating_differences_in_percent s
  let performance_list_stock ← calculate_performance s
  let levermann : ℤ := 0
  let levermann := if rating_dif_prc > 10.0 then levermann + 1
    else if rating_dif_prc < 10.0 then levermann - 1 else levermann
  let levermann := performance_list_stock.foldl (fun acc per_it =>
    if per_it > 0.05 then acc + 1 else if per_it < -0.05 then acc - 1 else acc)
    levermann
  let p0 := performance_list_stock.getD 0 0
  let p1 := performance_list_stock.getD 1 0
  let levermann := if p0 > 0.05 ∧ (0.05 > p1 ∧ p1 > -0.05 ∨ p1 < -0.05) then
      levermann + 1
    else if p0 < -0.05 ∧ (0.05 > p1 ∧ p1 > -0.05 ∨ p1 > 0.05) then levermann - 1
    else levermann
  pure levermann

/-- `__calculate_growing` (criterion 13). -/
def calculate_growing (s : Snapshot) : Except PyError ℤ := do
  let eps_last_diff_prc ← calculate_eps_difference s
  pure (if eps_last_diff_prc > 5.0 then 1
    else if eps_last_diff_prc < -5.0 then (-1 : ℤ) else 0)

/-- The sum computed inside the `try` block of `analyse`:
quality + rating + mood + momentum + technique + growing, in the source's
evaluation order; the first raised exception aborts the sum. -/
def compositeScore (s : Snapshot) : Except PyError ℤ := do
  let q ← calculate_quality s
  let r ← calculate_rating s
  let m ← calculate_mood s
  let mo ← calculate_momentum s
  let t ← calculate_technique s
  let g ← calculate_growing s
  pure (q + r + m + mo + t + g)

/-- The threshold classifier at the end of `analyse` (`calcv` models the
engine's cached `self.calc`): `self.calc >= self.buy` gives BUY, else
`self.calc <= self.sell` gives SELL, else HOLD. -/
def decisionOf (calcv buy sell : ℤ) : Decision :=
  if calcv ≥ buy then .BUY else if calcv ≤ sell then .SELL else .HOLD

/-- Whether `except (KeyError, IndexError, TypeError)` catches the error. -/
def isCaught : PyError → Bool
  | .keyError => true
  | .indexError => true
  | .typeError => true
  | _ => false

/-- `analyse`: computes the composite inside `try`, storing it in
`self.calc` on success; a caught exception leaves the previously cached
`calc` in place; the decision thresholds whatever `self.calc` then holds.
The result pairs the returned decision with the engine's cached composite
after the call; an uncaught exception propagates to the caller
(`.error`). -/
def analyse (buy sell calcv : ℤ) (s : Snapshot) : Except PyError (Decision × ℤ) :=
  match compositeScore s with
  | .ok levermann => .ok (decisionOf levermann buy sell, levermann)
  | .error e =>
      if isCaught e then .ok (decisionOf calcv buy sell, calcv) else .error e

/-- A fully healthy snapshot: every adapter access succeeds, one price bar,
one trend entry of rating 3 by 1 analyst, no income-statement records, all
statement scalars `0`. -/
def baseSnap : Snapshot where
  totalAssets := .ok 0
  totalCurrentLiabili := .ok 0
  accumulatedDepreciation := .ok 0
  netIncome := .ok 0
  netBeforeTaxes := .ok 0
  totalRevenue := .ok 0
  dilutedEpsExtraOrd := fun _ => .ok 0
  recommendationEps := .ok 0
  trendsDistributionList := fun _ => .ok [⟨3, 1⟩]
  incomeReportDates := .ok []
  bars := [⟨1, 0⟩]
  indexBars := [⟨1, 0⟩]

/-- `baseSnap` with malformed income-statement data: obtaining the records
raises `TypeError`. -/
def badSnap : Snapshot :=
  { baseSnap with incomeReportDates := .error .typeError }

/-- `baseSnap` with empty trend distribution lists, so the weighted trend
rating is `0`. -/
def zSnap : Snapshot :=
  { baseSnap with trendsDistributionList := fun _ => .ok [] }


/-- `baseSnap` with EPS estimate 10 and annual diluted-EPS samples 10 (offset
0, the most recent), sentinel at offsets 4, 8, 12, and 5 at offset 16 (the
oldest). -/
def gSnap : Snapshot :=
  { baseSnap with
    recommendationEps := .ok 10
    dilutedEpsExtraOrd := fun q =>
      if q = 0 then .ok 10 else if q = 16 then .ok 5 else .ok (-1) }

/-- `baseSnap` with the latest trend distribution
`{rating=5, count=3}, {rating=1, count=1}` (weighted rating 4). -/
def mSnap : Snapshot :=
  { baseSnap with trendsDistributionList := fun _ => .ok [⟨5, 3⟩, ⟨1, 1⟩] }

/-- `baseSnap` with a positive EPS estimate (2) and positive annual EPS
samples (1), so the price/earnings ratio pair is available. -/
def posSnap : Snapshot :=
  { baseSnap with
    recommendationEps := .ok 2
    dilutedEpsExtraOrd := fun _ => .ok 1 }

/-- 90 stock bars with constant close 1: all three 30-bar window
performances are 0. -/
def tStockBars : List Bar :=
  (List.range 90).map (fun i => ⟨1, (i : ℤ)⟩)

/-- 90 index bars with close 1 except close 2 at the last bar of each 30-bar
window: all three window performances are 1. -/
def tIndexBars : List Bar :=
  (List.range 90).map (fun i => ⟨if i % 30 = 29 then 2 else 1, (i : ℤ)⟩)

/-- `baseSnap` with 90-bar stock and index series for which the index
outperforms the stock in every 30-bar window, so the signed comparison sum
is `+3`. -/
def tSnap : Snapshot :=
  { baseSnap with bars := tStockBars, indexBars := tIndexBars }

/-- Sequences a list of fallible sample accesses into a fallible list. -/
def collectExcept : List (Except PyError ℚ) → Except PyError (List ℚ)
  | [] => .ok []
  | e :: rest => do
      let v ← e
      let vs ← collectExcept rest
      pure (v :: vs)

/-- Definition following claim C6's words rather than the source: the growth
sub-score compares the EPS estimate with the *most recent* non-sentinel
sample among the five trailing annual diluted-EPS samples (quarter offsets
0, 4, 8, 12, 16, in that order of recency), with the same percentage
scoring and zero-estimate guard as the source. -/
def specGrowthScore (s : Snapshot) : Except PyError ℤ := do
  let eps_estimate ← s.recommendationEps
  let samples ← collectExcept (epsAnnualSamples s)
  let eps_last := ((samples.filter (fun v => decide (v ≠ -1))).head?).getD 0
  let d : ℚ := if eps_estimate = 0 then 0
    else 100 * (eps_estimate - eps_last) / eps_estimate
  pure (if d > 5.0 then 1 else if d < -5.0 then (-1 : ℤ) else 0)

theorem ok_bind {α β : Type} (a : α) (f : α → Except PyError β) :
    (Except.ok a >>= f) = f a := rfl

theorem error_bind {α β : Type} (e : PyError) (f : α → Except PyError β) :
    ((Except.error e : Except PyError α) >>= f) = .error e := rfl

theorem pure_eq_ok {α : Type} (a : α) :
    (pure a : Except PyError α) = .ok a := rfl

theorem quality_baseSnap : calculate_quality baseSnap = .ok (-3) := by
  norm_num [calculate_quality, calculate_roe, calculate_ebit_margin,
    calculate_shareholders_equity_ratio, calculate_shareholders_equity,
    baseSnap, ok_bind, pure_eq_ok]

theorem eps_avg_baseSnap : calculate_eps_avg baseSnap = .ok 0 := by
  norm_num [calculate_eps_avg, eps_avg_loop, epsAnnualSamples, baseSnap,
    List.range_succ, ok_bind, pure_eq_ok]

theorem rating_baseSnap : calculate_rating baseSnap = .ok (-1) := by
  norm_num [calculate_rating, calculate_price_earnings_ratios,
    calculate_eps_avg, eps_avg_loop, epsAnnualSamples, baseSnap,
    List.range_succ, ok_bind, pure_eq_ok]

theorem mood_baseSnap : calculate_mood baseSnap = .ok 1 := by
  norm_num [calculate_mood, calculate_trendsrating,
    calculate_impact_of_quartly_figures, baseSnap, ok_bind, pure_eq_ok]

theorem momentum_baseSnap : calculate_momentum baseSnap = .ok (-1) := by
  norm_num [calculate_momentum, calculate_rating_differences_in_percent,
    calculate_performance, calculate_trendsrating, npdiv, baseSnap,
    ok_bind, pure_eq_ok]

theorem technique_baseSnap : calculate_technique baseSnap = .ok 0 := by
  norm_num [calculate_technique, compare_index_with_stock_performance,
    get_performance, baseSnap, ok_bind, pure_eq_ok]

theorem growing_baseSnap : calculate_growing baseSnap = .ok 0 := by
  norm_num [calculate_growing, calculate_eps_difference, eps_last_loop,
    epsAnnualSamples, baseSnap, List.range_succ, ok_bind, pure_eq_ok]

theorem composite_baseSnap : compositeScore baseSnap = .ok (-4) := by
  norm_num [compositeScore, quality_baseSnap, rating_baseSnap, mood_baseSnap,
    momentum_baseSnap, technique_baseSnap, growing_baseSnap, ok_bind,
    pure_eq_ok]

theorem quality_badSnap : calculate_quality badSnap = .ok (-3) := by
  norm_num [calculate_quality, calculate_roe, calculate_ebit_margin,
    calculate_shareholders_equity_ratio, calculate_shareholders_equity,
    badSnap, baseSnap, ok_bind, pure_eq_ok]

theorem rating_badSnap : calculate_rating badSnap = .ok (-1) := by
  norm_num [calculate_rating, calculate_price_earnings_ratios,
    calculate_eps_avg, eps_avg_loop, epsAnnualSamples, badSnap, baseSnap,
    List.range_succ, ok_bind, pure_eq_ok]

theorem mood_badSnap : calculate_mood badSnap = .error .typeError := by
  norm_num [calculate_mood, calculate_trendsrating,
    calculate_impact_of_quartly_figures, badSnap, baseSnap, ok_bind,
    error_bind, pure_eq_ok]

theorem composite_badSnap : compositeScore badSnap = .error .typeError := by
  norm_num [compositeScore, quality_badSnap, rating_badSnap, mood_badSnap,
    ok_bind, error_bind, pure_eq_ok]

theorem quality_zSnap : calculate_quality zSnap = .ok (-3) := by
  norm_num [calculate_quality, calculate_roe, calculate_ebit_margin,
    calculate_shareholders_equity_ratio, calculate_shareholders_equity,
    zSnap, baseSnap, ok_bind, pure_eq_ok]

theorem rating_zSnap : calculate_rating zSnap = .ok (-1) := by
  norm_num [calculate_rating, calculate_price_earnings_ratios,
    calculate_eps_avg, eps_avg_loop, epsAnnualSamples, zSnap, baseSnap,
    List.range_succ, ok_bind, pure_eq_ok]

theorem mood_zSnap : calculate_mood zSnap = .ok (-1) := by
  norm_num [calculate_mood, calculate_trendsrating,
    calculate_impact_of_quartly_figures, zSnap, baseSnap, ok_bind,
    pure_eq_ok]

theorem momentum_zSnap :
    calculate_momentum zSnap = .error .zeroDivisionError := by
  norm_num [calculate_momentum, calculate_rating_differences_in_percent,
    calculate_trendsrating, zSnap, baseSnap, ok_bind, error_bind, pure_eq_ok]

theorem composite_zSnap : compositeScore zSnap = .error .zeroDivisionError := by
  norm_num [compositeScore, quality_zSnap, rating_zSnap, mood_zSnap,
    momentum_zSnap, ok_bind, error_bind, pure_eq_ok]

theorem eps_difference_gSnap : calculate_eps_difference gSnap = .ok 50 := by
  norm_num [calculate_eps_difference, eps_last_loop, epsAnnualSamples,
    gSnap, baseSnap, List.range_succ, ok_bind, pure_eq_ok]

theorem growing_gSnap : calculate_growing gSnap = .ok 1 := by
  norm_num [calculate_growing, eps_difference_gSnap, ok_bind, pure_eq_ok]

theorem specGrowth_gSnap : specGrowthScore gSnap = .ok 0 := by
  norm_num [specGrowthScore, collectExcept, epsAnnualSamples, gSnap,
    baseSnap, List.range_succ, ok_bind, pure_eq_ok]

theorem impact_mSnap :
    calculate_impact_of_quartly_figures mSnap = .ok (-1) := by
  norm_num [calculate_impact_of_quartly_figures, mSnap, baseSnap, ok_bind,
    pure_eq_ok]

theorem eps_avg_posSnap : calculate_eps_avg posSnap = .ok 1 := by
  norm_num [calculate_eps_avg, eps_avg_loop, epsAnnualSamples, posSnap,
    baseSnap, List.range_succ, ok_bind, pure_eq_ok]

theorem compare_tSnap :
    compare_index_with_stock_performance tSnap = .ok 3 := by
  norm_num [compare_index_with_stock_performance, get_performance, npdiv,
    tSnap, tStockBars, tIndexBars, baseSnap, comparePerfRun,
    List.range_succ, ok_bind, pure_eq_ok]

theorem technique_tSnap : calculate_technique tSnap = .ok 1 := by
  norm_num [calculate_technique, compare_tSnap, ok_bind, pure_eq_ok]

/-- C1: in an evaluation where no sub-score calculator raises, the composite
equals exactly Quality + Valuation + Mood + Momentum + Technique + Growth
from the one bound snapshot, `analyse` returns the decision obtained by
thresholding that composite, and the classifier maps composite ≥ buy to
BUY, composite ≤ sell (when below buy) to SELL, and strictly-between values
to HOLD, with inclusive boundaries. -/
theorem C1_composite_sum_and_thresholds (buy sell calcv : ℤ) (s : Snapshot)
    (q r m mo t g : ℤ)
    (hq : calculate_quality s = .ok q) (hr : calculate_rating s = .ok r)
    (hm : calculate_mood s = .ok m) (hmo : calculate_momentum s = .ok mo)
    (ht : calculate_technique s = .ok t) (hg : calculate_growing s = .ok g) :
    compositeScore s = .ok (q + r + m + mo + t + g) ∧
    analyse buy sell calcv s =
      .ok (decisionOf (q + r + m + mo + t + g) buy sell,
        q + r + m + mo + t + g) ∧
    (buy ≤ q + r + m + mo + t + g →
      decisionOf (q + r + m + mo + t + g) buy sell = .BUY) ∧
    (q + r + m + mo + t + g < buy → q + r + m + mo + t + g ≤ sell →
      decisionOf (q + r + m + mo + t + g) buy sell = .SELL) ∧
    (sell < q + r + m + mo + t + g → q + r + m + mo + t + g < buy →
      decisionOf (q + r + m + mo + t + g) buy sell = .HOLD) := by
  have hcomp : compositeScore s = .ok (q + r + m + mo + t + g) := by
    simp [compositeScore, hq, hr, hm, hmo, ht, hg, ok_bind, pure_eq_ok]
  refine ⟨hcomp, ?_, ?_, ?_, ?_⟩
  · simp [analyse, hcomp]
  · intro h
    simp only [decisionOf]
    rw [if_pos (by omega : q + r + m + mo + t + g ≥ buy)]
  · intro h1 h2
    simp only [decisionOf]
    rw [if_neg (by omega : ¬ q + r + m + mo + t + g ≥ buy), if_pos h2]
  · intro h1 h2
    simp only [decisionOf]
    rw [if_neg (by omega : ¬ q + r + m + mo + t + g ≥ buy),
      if_neg (by omega : ¬ q + r + m + mo + t + g ≤ sell)]

/-- C1 witness: on `baseSnap` all six calculators succeed with sub-scores
−3, −1, 1, −1, 0, 0; with thresholds buy=3, sell=−2 the composite −4 gives
SELL, and a composite exactly equal to the buy threshold gives BUY. -/
theorem C1_witness :
    analyse 3 (-2) 0 baseSnap = .ok (.SELL, -4) ∧
    decisionOf (-4) (-4) (-5) = .BUY := by
  have h := C1_composite_sum_and_thresholds 3 (-2) 0 baseSnap
    (-3) (-1) 1 (-1) 0 0 quality_baseSnap rating_baseSnap mood_baseSnap
    momentum_baseSnap technique_baseSnap growing_baseSnap
  have h2 := C1_composite_sum_and_thresholds (-4) (-5) 0 baseSnap
    (-3) (-1) 1 (-1) 0 0 quality_baseSnap rating_baseSnap mood_baseSnap
    momentum_baseSnap technique_baseSnap growing_baseSnap
  constructor
  · have ha := h.2.1
    norm_num [decisionOf] at ha
    exact ha
  · have hb := h2.2.2.1
    norm_num at hb
    exact hb

/-- C2: when a sub-score calculator raises a caught data-access failure
(KeyError, IndexError or TypeError), the cached composite is left unchanged
and the returned decision thresholds that previous composite; with prior
composite −5 and sell threshold −2 the decision is SELL. -/
theorem C2_stale_composite_fallback (buy sell calcv : ℤ) (s : Snapshot)
    (e : PyError) (hcomp : compositeScore s = .error e)
    (hc : isCaught e = true) :
    analyse buy sell calcv s = .ok (decisionOf calcv buy sell, calcv) ∧
    (calcv = -5 → sell = -2 → -5 < buy →
      analyse buy sell calcv s = .ok (.SELL, -5)) := by
  have hmain : analyse buy sell calcv s = .ok (decisionOf calcv buy sell, calcv) := by
    simp [analyse, hcomp, hc]
  refine ⟨hmain, ?_⟩
  rintro rfl rfl hb
  rw [hmain]
  simp only [decisionOf]
  rw [if_neg (by omega : ¬ (-5 : ℤ) ≥ buy), if_pos (by norm_num : (-5 : ℤ) ≤ -2)]

/-- C2 witness: on `badSnap` (income records raise TypeError) with prior
cached composite −5 and thresholds buy=3, sell=−2, `analyse` returns SELL
and the cache still holds −5. -/
theorem C2_witness : analyse 3 (-2) (-5) badSnap = .ok (.SELL, -5) :=
  (C2_stale_composite_fallback 3 (-2) (-5) badSnap .typeError
    composite_badSnap rfl).2 rfl rfl (by norm_num)

/-- C3 counterexample: on `zSnap` the trend distribution lists are empty, so
the weighted trend rating is 0 and the rating-change division raises
`ZeroDivisionError`, which `analyse` does not catch: the evaluation
propagates the exception to the caller instead of returning a decision. -/
theorem C3_counterexample :
    analyse 3 (-2) 0 zSnap = .error .zeroDivisionError := by
  simp [analyse, composite_zSnap, isCaught]

/-- C3 amended: `analyse` never propagates the caught failure classes
(missing key, out-of-range index, type mismatch) — any exception that
escapes to the caller is an uncaught one, such as the `ZeroDivisionError`
raised when the weighted trend rating divisor is zero; that divisor is not
guarded, so evaluation does not always return a decision. -/
theorem C3_amended_only_uncaught_escape (buy sell calcv : ℤ) (s : Snapshot)
    (e : PyError) (h : analyse buy sell calcv s = .error e) :
    isCaught e = false := by
  unfold analyse at h
  cases hc : compositeScore s with
  | ok v => rw [hc] at h; simp at h
  | error e2 =>
      rw [hc] at h
      by_cases hb : isCaught e2 = true
      · simp [hb] at h
      · simp [hb] at h
        rw [← h]
        simpa using hb

/-- C3 amended witness: the `ZeroDivisionError` escaping from `zSnap` is an
uncaught class. -/
theorem C3_amended_witness : isCaught .zeroDivisionError = false :=
  C3_amended_only_uncaught_escape 3 (-2) 0 zSnap .zeroDivisionError
    (by simp [analyse, composite_zSnap, isCaught])

/-- C4 counterexample: on `baseSnap` the valuation calculator returns the
−1 sentinel, the other five sub-scores are −3, 1, −1, 0, 0, and the
composite is −4 = (−3) + (−1) + 1 + (−1) + 0 + 0: the sentinel enters the
sum as −1, not as the claimed 0 contribution (which would give −3). -/
theorem C4_counterexample :
    calculate_rating baseSnap = .ok (-1) ∧
    calculate_quality baseSnap = .ok (-3) ∧
    calculate_mood baseSnap = .ok 1 ∧
    calculate_momentum baseSnap = .ok (-1) ∧
    calculate_technique baseSnap = .ok 0 ∧
    calculate_growing baseSnap = .ok 0 ∧
    compositeScore baseSnap = .ok (-4) ∧
    (-4 : ℤ) ≠ (-3) + 0 + 1 + (-1) + 0 + 0 :=
  ⟨rating_baseSnap, quality_baseSnap, mood_baseSnap, momentum_baseSnap,
    technique_baseSnap, growing_baseSnap, composite_baseSnap, by norm_num⟩

/-- C4 amended: when the EPS estimate or the 5-year EPS average is not
positive, the valuation calculation yields the sentinel −1, and that −1 is
added as-is into the composite sum (a contribution of −1, not 0). -/
theorem C4_amended_sentinel_contributes (s : Snapshot) (e a lc : ℚ)
    (q m mo t g : ℤ)
    (hest : s.recommendationEps = .ok e)
    (hlast : (s.bars.map Bar.close).getLast? = some lc)
    (havg : calculate_eps_avg s = .ok a)
    (hun : ¬(e > 0 ∧ a > 0))
    (hq : calculate_quality s = .ok q) (hm : calculate_mood s = .ok m)
    (hmo : calculate_momentum s = .ok mo) (ht : calculate_technique s = .ok t)
    (hg : calculate_growing s = .ok g) :
    calculate_rating s = .ok (-1) ∧
    compositeScore s = .ok (q + (-1) + m + mo + t + g) := by
  have hr : calculate_rating s = .ok (-1) := by
    simp [calculate_rating, calculate_price_earnings_ratios, hest, hlast,
      havg, hun, ok_bind, pure_eq_ok]
  exact ⟨hr, by simp [compositeScore, hq, hr, hm, hmo, ht, hg, ok_bind,
    pure_eq_ok]⟩

/-- C4 amended witness: on `baseSnap` (EPS estimate 0) the valuation term is
−1 and the composite is −4, reflecting the −1 contribution. -/
theorem C4_witness :
    calculate_rating baseSnap = .ok (-1) ∧
    compositeScore baseSnap = .ok (-4) := by
  have h := C4_amended_sentinel_contributes baseSnap 0 0 1 (-3) 1 (-1) 0 0
    rfl rfl eps_avg_baseSnap (by norm_num) quality_baseSnap mood_baseSnap
    momentum_baseSnap technique_baseSnap growing_baseSnap
  refine ⟨h.1, ?_⟩
  have h2 := h.2
  norm_num at h2
  exact h2

/-- C5 counterexample: on `tSnap` the position-by-position comparison of the
rolling 30-bar performance sequences sums to exactly +3, and the technique
sub-score is +1 — not the −1 the claim prescribes for a sum of +3. -/
theorem C5_counterexample :
    compare_index_with_stock_performance tSnap = .ok 3 ∧
    calculate_technique tSnap = .ok 1 ∧
    Except.ok (1 : ℤ) ≠ (Except.ok (-1 : ℤ) : Except PyError ℤ) :=
  ⟨compare_tSnap, technique_tSnap, by simp⟩

/-- C5 amended: the technique sub-score is +1 when the signed comparison sum
is exactly +3, −1 when it is exactly −3 (the opposite orientation of the
claim), and 0 for any other sum; and when either rolling performance
sequence is empty the comparison sum is 0. -/
theorem C5_amended_sign_mapping (s : Snapshot) (pm : ℤ)
    (h : compare_index_with_stock_performance s = .ok pm) :
    calculate_technique s =
      .ok (if pm = 3 then 1 else if pm = -3 then (-1 : ℤ) else 0) ∧
    ((get_performance (s.bars.map Bar.close) 30).reverse = [] ∨
      (get_performance (s.indexBars.map Bar.close) 30).reverse = [] →
      compare_index_with_stock_performance s = .ok 0) := by
  constructor
  · simp [calculate_technique, h, ok_bind, pure_eq_ok]
  · intro hemp
    unfold compare_index_with_stock_performance
    rcases hemp with h1 | h1 <;> rw [h1] <;> simp

/-- C5 amended witness: the +3 sum on `tSnap` scores +1, and on `baseSnap`
(fewer than 30 bars, so empty performance sequences) the comparison sum is
0. -/
theorem C5_witness :
    calculate_technique tSnap = .ok 1 ∧
    compare_index_with_stock_performance baseSnap = .ok 0 := by
  constructor
  · have h := (C5_amended_sign_mapping tSnap 3 compare_tSnap).1
    norm_num at h
    exact h
  · have hb : compare_index_with_stock_performance baseSnap = .ok 0 := by
      norm_num [compare_index_with_stock_performance, get_performance,
        baseSnap]
    exact (C5_amended_sign_mapping baseSnap 0 hb).2
      (Or.inl (by norm_num [get_performance, baseSnap]))

/-- C6 counterexample: on `gSnap` (EPS estimate 10, most recent sample 10 at
offset 0, oldest sample 5 at offset 16) the code's growth sub-score is +1,
while the claim's prescription — comparing against the most recent
non-sentinel sample — yields 0. -/
theorem C6_counterexample :
    calculate_growing gSnap = .ok 1 ∧
    specGrowthScore gSnap = .ok 0 ∧
    calculate_growing gSnap ≠ specGrowthScore gSnap := by
  refine ⟨growing_gSnap, specGrowth_gSnap, ?_⟩
  rw [growing_gSnap, specGrowth_gSnap]
  simp

/-- C6 amended: the growth sub-score compares the EPS estimate with the
non-sentinel sample at the *largest* available quarter offset (16 first,
then 12, 8, 4, 0) — the oldest available sample, not the most recent — with
percentage difference > 5% scoring +1, < −5% scoring −1, 0 otherwise, and a
zero EPS estimate guarded to a difference of 0 (hence sub-score 0). -/
theorem C6_amended_oldest_available_sample (s : Snapshot)
    (e v0 v1 v2 v3 v4 : ℚ)
    (hest : s.recommendationEps = .ok e)
    (h0 : s.dilutedEpsExtraOrd 0 = .ok v0)
    (h1 : s.dilutedEpsExtraOrd 4 = .ok v1)
    (h2 : s.dilutedEpsExtraOrd 8 = .ok v2)
    (h3 : s.dilutedEpsExtraOrd 12 = .ok v3)
    (h4 : s.dilutedEpsExtraOrd 16 = .ok v4) :
    calculate_eps_difference s = .ok (if e = 0 then 0 else
      100 * (e - (if v4 ≠ -1 then v4 else if v3 ≠ -1 then v3
        else if v2 ≠ -1 then v2 else if v1 ≠ -1 then v1
        else if v0 ≠ -1 then v0 else 0)) / e) ∧
    (∀ d : ℚ, calculate_eps_difference s = .ok d →
      calculate_growing s = .ok (if d > 5.0 then 1
        else if d < -5.0 then (-1 : ℤ) else 0)) := by
  constructor
  · have hsamples : epsAnnualSamples s =
        [.ok v0, .ok v1, .ok v2, .ok v3, .ok v4] := by
      simp [epsAnnualSamples, List.range_succ, h0, h1, h2, h3, h4]
    have hloop : eps_last_loop [Except.ok v0, .ok v1, .ok v2, .ok v3, .ok v4] 0 =
        .ok (if v4 ≠ -1 then v4 else if v3 ≠ -1 then v3
          else if v2 ≠ -1 then v2 else if v1 ≠ -1 then v1
          else if v0 ≠ -1 then v0 else 0) := by
      simp only [eps_last_loop, ok_bind]
      split_ifs <;> rfl
    simp only [calculate_eps_difference, hest, hsamples, ok_bind, hloop]
    split_ifs <;> simp [pure_eq_ok]
  · intro d hd
    simp [calculate_growing, hd, ok_bind, pure_eq_ok]

/-- C6 amended witness: on `gSnap` the oldest available sample (5 at offset
16) drives the difference: 100·(10−5)/10 = 50%, so the growth sub-score is
+1. -/
theorem C6_witness :
    calculate_eps_difference gSnap = .ok 50 ∧
    calculate_growing gSnap = .ok 1 := by
  have h := C6_amended_oldest_available_sample gSnap 10 10 (-1) (-1) (-1) 5
    rfl rfl rfl rfl rfl rfl
  have hd := h.1
  norm_num at hd
  refine ⟨hd, ?_⟩
  have hg := h.2 50 hd
  norm_num at hg
  exact hg

/-- C7: the mood sub-score is the sum of a trend-rating term (+1 when the
weighted rating is ≥ 2.5, −1 when ≤ 1.5) and a quarterly-impact term (+1
when the impact exceeds 1.0, −1 when below −1.0); with no income-statement
record the impact value is the sentinel −1, which contributes no points. -/
theorem C7_mood (s : Snapshot) (dist : List DistEntry) (i : ℚ)
    (h0 : s.trendsDistributionList 0 = .ok dist)
    (hi : calculate_impact_of_quartly_figures s = .ok i) :
    calculate_mood s =
      .ok ((if calculate_trendsrating dist ≥ 2.5 then 1
        else if calculate_trendsrating dist ≤ 1.5 then (-1 : ℤ) else 0) +
        (if i > 1.0 then 1 else if i < -1.0 then -1 else 0)) ∧
    (s.incomeReportDates = .ok [] → i = -1) := by
  constructor
  · simp only [calculate_mood, h0, ok_bind, hi, pure_eq_ok]
    split_ifs <;> norm_num
  · intro hrec
    have himp : calculate_impact_of_quartly_figures s = .ok (-1) := by
      simp [calculate_impact_of_quartly_figures, hrec, ok_bind, pure_eq_ok]
    exact Except.ok.inj (hi.symm.trans himp)

/-- C7 witness: on `mSnap` (distribution {rating=5, count=3},
{rating=1, count=1}, weighted rating 4, no statement record) the mood
sub-score is exactly +1. -/
theorem C7_witness : calculate_mood mSnap = .ok 1 := by
  have h := (C7_mood mSnap [⟨5, 3⟩, ⟨1, 1⟩] (-1) rfl impact_mSnap).1
  norm_num [calculate_trendsrating] at h
  exact h

/-- Rewrites one sequential `levermann` update step into an additive
contribution. -/
theorem acc_if_step (P Q : Prop) [Decidable P] [Decidable Q] (acc : ℤ) :
    (if P then acc + 1 else if Q then acc - 1 else acc) =
    acc + (if P then 1 else if Q then -1 else 0) := by
  split_ifs <;> omega

/-- C8: in the momentum sub-score, the analyst-rating-change criterion
contributes +1 when the rating-change percentage is greater than 10 and −1
when it is less than 10 (the complementary branch as literally written,
evaluated second), so it contributes 0 exactly when the change equals 10. -/
theorem C8_momentum_rating_change (s : Snapshot) (rd p0 p1 : ℚ)
    (hrd : calculate_rating_differences_in_percent s = .ok rd)
    (hp : calculate_performance s = .ok [p0, p1]) :
    calculate_momentum s = .ok ((if rd > 10.0 then 1
        else if rd < 10.0 then (-1 : ℤ) else 0) +
      ((if p0 > 0.05 then (1 : ℤ) else if p0 < -0.05 then -1 else 0) +
        (if p1 > 0.05 then (1 : ℤ) else if p1 < -0.05 then -1 else 0)) +
      (if p0 > 0.05 ∧ (0.05 > p1 ∧ p1 > -0.05 ∨ p1 < -0.05) then 1
        else if p0 < -0.05 ∧ (0.05 > p1 ∧ p1 > -0.05 ∨ p1 > 0.05) then
          (-1 : ℤ)
        else 0)) ∧
    ((if rd > 10.0 then (1 : ℤ) else if rd < 10.0 then -1 else 0) = 0 ↔
      rd = 10.0) := by
  constructor
  · simp only [calculate_momentum, hrd, hp, ok_bind, pure_eq_ok,
      List.foldl_cons, List.foldl_nil, List.getD_cons_zero,
      List.getD_cons_succ, acc_if_step]
    congr 1
    ring
  · constructor
    · intro h
      by_cases h1 : rd > 10.0
      · rw [if_pos h1] at h
        exact absurd h (by norm_num)
      · by_cases h2 : rd < 10.0
        · rw [if_neg h1, if_pos h2] at h
          exact absurd h (by norm_num)
        · exact le_antisymm (not_lt.mp h1) (not_lt.mp h2)
    · rintro rfl
      norm_num

/-- C8 witness: on `baseSnap` the rating change is 0 (< 10%), both
performance figures are 0, and no bonus applies, so the momentum sub-score
is −1, coming entirely from the rating-change criterion. -/
theorem C8_witness : calculate_momentum baseSnap = .ok (-1) := by
  have hrd : calculate_rating_differences_in_percent baseSnap = .ok 0 := by
    norm_num [calculate_rating_differences_in_percent,
      calculate_trendsrating, baseSnap, ok_bind, pure_eq_ok]
  have hp : calculate_performance baseSnap = .ok [0, 0] := by
    norm_num [calculate_performance, npdiv, baseSnap, ok_bind, pure_eq_ok]
  have h := (C8_momentum_rating_change baseSnap 0 0 0 hrd hp).1
  norm_num at h
  exact h

/-- C9: for a fixed composite and thresholds with sell < buy (assumed by the
spec, not enforced), raising the buy threshold can only turn BUY into HOLD,
never into SELL, and lowering the sell threshold can only turn SELL into
HOLD. -/
theorem C9_threshold_monotonicity (c buy sell buy2 sell2 : ℤ)
    (hbs : sell < buy) :
    (decisionOf c buy sell = .BUY → buy ≤ buy2 →
      (decisionOf c buy2 sell = .BUY ∨ decisionOf c buy2 sell = .HOLD)) ∧
    (decisionOf c buy sell = .SELL → sell2 ≤ sell →
      (decisionOf c buy sell2 = .SELL ∨ decisionOf c buy sell2 = .HOLD)) := by
  unfold decisionOf
  constructor
  · intro hb hle
    by_cases h1 : c ≥ buy
    · by_cases h2 : c ≥ buy2
      · left
        rw [if_pos h2]
      · right
        rw [if_neg h2, if_neg (by omega : ¬ c ≤ sell)]
    · exfalso
      rw [if_neg h1] at hb
      split_ifs at hb
  · intro hs hle
    by_cases h1 : c ≥ buy
    · rw [if_pos h1] at hs
      simp at hs
    · by_cases h2 : c ≤ sell2
      · left
        rw [if_neg h1, if_pos h2]
      · right
        rw [if_neg h1, if_neg h2]

/-- C9 witness: composite 5 is BUY at buy=3, sell=−2; raising buy to 10
leaves BUY-or-HOLD; composite −5 is SELL there; lowering sell to −10 leaves
SELL-or-HOLD. -/
theorem C9_witness :
    (decisionOf 5 10 (-2) = .BUY ∨ decisionOf 5 10 (-2) = .HOLD) ∧
    (decisionOf (-5) 3 (-10) = .SELL ∨ decisionOf (-5) 3 (-10) = .HOLD) := by
  constructor
  · exact (C9_threshold_monotonicity 5 3 (-2) 10 0 (by norm_num)).1
      (by norm_num [decisionOf]) (by norm_num)
  · exact (C9_threshold_monotonicity (-5) 3 (-2) 0 (-10) (by norm_num)).2
      (by norm_num [decisionOf]) (by norm_num)

/-- C10: when the adapter accesses succeed, the valuation calculator returns
−1 exactly when the EPS estimate or the 5-year EPS average is not positive
(the ratio pair is unavailable), and +2 whenever both are positive — each
ratio satisfies the literal first branch `ratio > 0 or ratio < 12` — so no
input produces any other value. -/
theorem C10_valuation_range (s : Snapshot) (e a lc : ℚ)
    (hest : s.recommendationEps = .ok e)
    (hlast : (s.bars.map Bar.close).getLast? = some lc)
    (havg : calculate_eps_avg s = .ok a) :
    calculate_rating s = .ok (if e > 0 ∧ a > 0 then 2 else -1) := by
  have hbranch : ∀ x : ℚ, x > 0 ∨ x < 12 := by
    intro x
    rcases lt_or_le 0 x with hx | hx
    · exact Or.inl hx
    · exact Or.inr (lt_of_le_of_lt hx (by norm_num))
  by_cases h : e > 0 ∧ a > 0
  · rw [if_pos h]
    have hr : calculate_price_earnings_ratios s =
        .ok (some [lc / e, lc / a]) := by
      simp [calculate_price_earnings_ratios, hest, hlast, havg, h, ok_bind,
        pure_eq_ok]
    simp [calculate_rating, hr, ok_bind, pure_eq_ok, List.foldl_cons,
      List.foldl_nil, hbranch (lc / e), hbranch (lc / a)]
  · rw [if_neg h]
    have hr : calculate_price_earnings_ratios s = .ok none := by
      simp [calculate_price_earnings_ratios, hest, hlast, havg, h, ok_bind,
        pure_eq_ok]
    simp [calculate_rating, hr, ok_bind, pure_eq_ok]

/-- C10 witness: on `posSnap` (EPS estimate 2, EPS average 1, both positive)
the valuation sub-score is +2. -/
theorem C10_witness : calculate_rating posSnap = .ok 2 := by
  have h := C10_valuation_range posSnap 2 1 1 rfl rfl eps_avg_posSnap
  norm_num at h
  exact h
